import Mathlib

/-!
Verification of the move-evaluation core of the automatic-chess-annotator
repository.  The definitions below are a shallow embedding of
`src/src/move_evaluator.py` (class `MoveEvaluator`) together with the plain
data classes it constructs.  Python floats are modelled by exact rationals,
machine-external collaborators (the UCI engine and the chess library's board
predicates) are modelled as function-valued parameters bundled in `Ext`, and
Python exceptions are modelled by `Except PyErr`.
-/

namespace ChessAnnotator

/-- Moves are opaque identifiers supplied by the external game loader. -/
abbrev Move := Nat

/-- python-chess encodes colors as booleans with `chess.WHITE = True`. -/
def WHITE : Bool := true

/-- `chess.BLACK = False`. -/
def BLACK : Bool := false

/-- Minimal board model: the side to move and the stack of moves played.
`push` flips the side to move and records the move; `pop` undoes it.  The
geometric content of a position is irrelevant to the evaluator: it only ever
reads `board.turn`, pushes, pops, and hands the board to external oracles. -/
structure Board where
  turn : Bool
  stack : List Move
deriving DecidableEq, Repr, Inhabited

def Board.push (b : Board) (m : Move) : Board := ⟨!b.turn, m :: b.stack⟩

def Board.pop (b : Board) : Board := ⟨!b.turn, b.stack.tail⟩

/-- A raw win/draw/loss triple as returned by `score.wdl()` in python-chess:
counts (permille in practice) relative to the side to move of the analysed
position. -/
structure Wdl3 where
  wins : ℚ
  draws : ℚ
  losses : ℚ
deriving DecidableEq, Repr, Inhabited

/-- `src.classes.Wdl`.  The class file is not present under `src/`; the field
names and constructor order `(wwc, wsr, bwc, bsr)` are reconstructed from the
construction site in `get_wdl_from_score` and the attribute reads
(`white_score_rate`, `black_score_rate`, `white_win_chance`,
`black_win_chance`) in `move_evaluator.py`. -/
structure Wdl where
  white_win_chance : ℚ
  white_score_rate : ℚ
  black_win_chance : ℚ
  black_score_rate : ℚ
deriving DecidableEq, Repr, Inhabited

/-- `src.classes.Score`.  Reconstructed from the constructor call
`Score(st_wdl, lt_wdl, pst, plt)` and the attribute reads
`short_term_info`, `long_term_info`, `prev_sterm_info`, `prev_lterm_info`. -/
structure Score where
  short_term_info : Wdl
  long_term_info : Wdl
  prev_sterm_info : Option Wdl
  prev_lterm_info : Option Wdl
deriving DecidableEq, Repr, Inhabited

/-- `src.classes.MovePoints`, from `src/src/classes/MovePoints.py`. -/
structure MovePoints where
  short_term_diff : ℚ
  long_term_diff : ℚ
  short_term_ep : ℚ
  long_term_ep : ℚ
  prev_short_term_ep : ℚ
  prev_long_term_ep : ℚ
  win_chance_white : ℚ
  win_chance_black : ℚ
  stm : Bool
deriving DecidableEq, Repr, Inhabited

/-- `src.classes.AltMoveScore`.  Reconstructed from the constructor call
`AltMoveScore(move, diff)` and the attribute reads `.move` and `.diff`. -/
structure AltMoveScore where
  move : Move
  diff : ℚ
deriving DecidableEq, Repr, Inhabited

/-- The `prev_terms` dictionary built at the end of each loop iteration of
`evaluate_game`. -/
structure PrevTerms where
  short_term_info : Wdl
  long_term_info : Wdl
deriving DecidableEq, Repr, Inhabited

/-- Python exceptions that the embedded code can raise.  The code itself only
ever raises `ZeroDivisionError` (by dividing by a zero total in
`get_wdl_from_score`).  `invalidDistributionError` is the error type named by
the spec; no such class exists anywhere in the repository — the constructor is
included only so that the spec's sentence about it can be stated. -/
inductive PyErr
  | zeroDivisionError
  | invalidDistributionError
deriving DecidableEq, Repr

/-- The f-string explanation texts of the classifier, abstracted to
constructors carrying the interpolated values (the numeric formatting of the
Python strings is not modelled). -/
inductive Explanation
  | brilliantLongTerm (ltd std : ℚ)
  | onlyPositive
  | goodLosingToWinning (pst st : ℚ)
  | goodLosingToEqual (pst st : ℚ)
  | goodDrawnToWinning (pst st : ℚ)
  | mistakeMissed (ltd : ℚ) (move : Move) (best : ℚ)
  | mistakeWorse (plt lt : ℚ)
  | blunderMissed (ltd : ℚ) (move : Move) (best : ℚ)
  | blunderWorse (ltd : ℚ) (move : Move) (best : ℚ)
deriving DecidableEq, Repr

/-- The external collaborators of `MoveEvaluator`: `engine.analyse` (returning
the wdl triple of the analysed board, relative to that board's side to move),
`board.legal_moves`, `board.is_check()` and `board.is_capture(move)` of the
chess library. -/
structure Ext where
  analyse : Board → Nat → Wdl3
  legal_moves : Board → List Move
  is_check : Board → Bool
  is_capture : Board → Move → Bool

/-- `Tags.BRILLIANT_MOVE_TAG`. -/
def BRILLIANT_MOVE_TAG : String := "!!"

/-- `Tags.GOOD_MOVE_TAG`. -/
def GOOD_MOVE_TAG : String := "!"

/-- `Tags.MISTAKE_TAG`. -/
def MISTAKE_TAG : String := "?"

/-- `Tags.BLUNDER_TAG`. -/
def BLUNDER_TAG : String := "??"

/-- Python's `sorted` applied to a 2-tuple. -/
def sorted2 (p : ℚ × ℚ) : ℚ × ℚ := if p.1 ≤ p.2 then (p.1, p.2) else (p.2, p.1)

/-- `MoveEvaluator.is_in` (move_evaluator.py:543-552):
`lower_bound, upper_bound = sorted(range_tuple); return lower_bound <= value <= upper_bound`. -/
def is_in (value : ℚ) (range_tuple : ℚ × ℚ) : Bool :=
  let s := sorted2 range_tuple
  let lower_bound := s.1
  let upper_bound := s.2
  decide (lower_bound ≤ value ∧ value ≤ upper_bound)

/-- `MoveEvaluator._verify_pv_scores` (move_evaluator.py:480-486):
`len(pv_scores) < 2 or not pv_scores[0] or not pv_scores[1]`.
`get_pv_scores` returns either the sentinel tuple `(None, None)` (modelled as
`none`, for which the truthiness tests make the check `True`) or a list of
`AltMoveScore` objects (always truthy, so only the length test matters). -/
def _verify_pv_scores (pv_scores : Option (List AltMoveScore)) : Bool :=
  match pv_scores with
  | none => true
  | some l => decide (l.length < 2)

/-- `MoveEvaluator.get_wdl_from_score` (move_evaluator.py:106-135).  The
division `score / total` raises `ZeroDivisionError` in Python when the
distribution is all-zero; this is the only fallible step. -/
def get_wdl_from_score (wdl : Wdl3) (stm : Bool) : Except PyErr Wdl :=
  let wins := wdl.wins
  let draws := wdl.draws
  let losses := wdl.losses
  let score := wins + draws / 2
  let total := wins + draws + losses
  if total = 0 then Except.error PyErr.zeroDivisionError else
  let score_rate := score / total
  let win_rate := wins / total
  let loss_rate := losses / total
  let bwc := if stm = WHITE then win_rate else loss_rate
  let wwc := if stm = BLACK then win_rate else loss_rate
  let bsr := if stm = WHITE then score_rate else 1 - score_rate
  let wsr := if stm = BLACK then score_rate else 1 - score_rate
  Except.ok (Wdl.mk wwc wsr bwc bsr)

/-- `MoveEvaluator.get_score` (move_evaluator.py:74-104).  The two engine
calls are modelled through `ext.analyse` at the two depths. -/
def get_score (ext : Ext) (shallow_depth deep_depth : Nat) (board : Board)
    (prev_terms : Option PrevTerms) : Except PyErr Score :=
  let stm := board.turn
  let st_score := ext.analyse board shallow_depth
  match get_wdl_from_score st_score stm with
  | Except.error e => Except.error e
  | Except.ok st_wdl =>
    let lt_score := ext.analyse board deep_depth
    match get_wdl_from_score lt_score stm with
    | Except.error e => Except.error e
    | Except.ok lt_wdl =>
      let pst := prev_terms.map (fun p => p.short_term_info)
      let plt := prev_terms.map (fun p => p.long_term_info)
      Except.ok (Score.mk st_wdl lt_wdl pst plt)

/-- The for-loop body of `get_pv_scores`: analyse each legal reply of the
previous position at depth 10 and record its score-rate delta against the
stored previous evaluation, from the perspective selected by `stm`. -/
def pv_loop (ext : Ext) (stm : Bool) (prev_board : Board) (prev_score : Wdl) :
    List Move → Except PyErr (List AltMoveScore)
  | [] => Except.ok []
  | m :: rest =>
    let pv_board := prev_board.push m
    let analysis := ext.analyse pv_board 10
    match get_wdl_from_score analysis stm with
    | Except.error e => Except.error e
    | Except.ok wdl =>
      let diff := if stm = WHITE then wdl.white_score_rate - prev_score.white_score_rate
                  else wdl.black_score_rate - prev_score.black_score_rate
      match pv_loop ext stm prev_board prev_score rest with
      | Except.error e => Except.error e
      | Except.ok pvs => Except.ok (AltMoveScore.mk m diff :: pvs)

/-- `MoveEvaluator.get_pv_scores` (move_evaluator.py:181-221).  Returns the
sentinel `(None, None)` (modelled `none`) when no previous term is stored,
otherwise the list of alternative-move scores sorted descending by diff
(Python's stable `list.sort` with `reverse=True`, modelled by a stable
insertion sort for the flipped order). -/
def get_pv_scores (ext : Ext) (board : Board) (prev_term : Option Wdl) :
    Except PyErr (Option (List AltMoveScore)) :=
  let stm := board.turn
  match prev_term with
  | none => Except.ok none
  | some prev_score =>
    let prev_board := board.pop
    match pv_loop ext stm prev_board prev_score (ext.legal_moves prev_board) with
    | Except.error e => Except.error e
    | Except.ok pvs =>
      Except.ok (some (List.insertionSort (fun a b => b.diff ≤ a.diff) pvs))

/-- `MoveEvaluator._process_score` (move_evaluator.py:223-263).  The Python
function ends in a plain `return mp`, so it yields a `MovePoints` record for
every input; the `Option` return type records that `classify_move` tests the
result against `None`. -/
def _process_score (board : Board) (score : Score) : Option MovePoints :=
  let stm := board.turn
  let st_exp := if stm = WHITE then score.short_term_info.white_score_rate
                else score.short_term_info.black_score_rate
  let lt_exp := if stm = WHITE then score.long_term_info.white_score_rate
                else score.long_term_info.black_score_rate
  let pst_exp := if stm = WHITE then
      (match score.prev_sterm_info with
       | some w => w.white_score_rate
       | none => 0.5)
    else
      (match score.prev_sterm_info with
       | some w => w.black_score_rate
       | none => 0.5)
  let plt_exp := if stm = WHITE then
      (match score.prev_lterm_info with
       | some w => w.white_score_rate
       | none => 0.5)
    else
      (match score.prev_lterm_info with
       | some w => w.black_score_rate
       | none => 0.5)
  let std := st_exp - pst_exp
  let ltd := lt_exp - plt_exp
  let wcw := score.long_term_info.white_win_chance
  let wcb := score.long_term_info.black_win_chance
  some (MovePoints.mk std ltd st_exp lt_exp pst_exp plt_exp wcw wcb stm)

/-- `MoveEvaluator.brilliant_move_check` (move_evaluator.py:265-327).
Scenario 1 precedes the `_verify_pv_scores` gate; scenario 2 returns the
GOOD_MOVE_TAG. -/
def brilliant_move_check (scores : MovePoints) (pv_scores : Option (List AltMoveScore))
    (move : Move) : Bool × Option String × Option Explanation :=
  let LIMITS : ℚ × ℚ := (0.1, 1)
  let BRILLIANT_LIMITS : ℚ × ℚ := (0.2, 1)
  let VERY_LOSING_LIMITS : ℚ × ℚ := (0, 0.3)
  let VERY_WINNING_LIMITS : ℚ × ℚ := (0.9, 1)
  let LONG_DELTA_FACTOR : ℚ := 0.7
  let std := scores.short_term_diff
  let ltd := scores.long_term_diff
  let lt_exp := scores.long_term_ep
  let plt_exp := scores.prev_long_term_ep
  if is_in ltd BRILLIANT_LIMITS && decide (std ≤ LONG_DELTA_FACTOR * ltd)
      && !(is_in lt_exp VERY_LOSING_LIMITS) then
    (true, some BRILLIANT_MOVE_TAG, some (Explanation.brilliantLongTerm ltd std))
  else if _verify_pv_scores pv_scores then (false, none, none)
  else
    let l := pv_scores.getD []
    let best_move_score := (l.getD 0 default).diff
    let second_best_move_score := (l.getD 1 default).diff
    if decide (0 < best_move_score) && decide (second_best_move_score ≤ 0)
        && is_in ltd LIMITS && !(is_in lt_exp VERY_LOSING_LIMITS)
        && !(is_in plt_exp VERY_WINNING_LIMITS) then
      (true, some GOOD_MOVE_TAG, some Explanation.onlyPositive)
    else (false, none, none)

/-- `MoveEvaluator.good_move_check` (move_evaluator.py:329-391). -/
def good_move_check (scores : MovePoints) (pv_scores : Option (List AltMoveScore))
    (move : Move) : Bool × Option String × Option Explanation :=
  let LIMITS : ℚ × ℚ := (0.02, 0.1)
  let LOSING_LIMITS : ℚ × ℚ := (0, 0.48)
  let EQUAL_LIMITS : ℚ × ℚ := (0.48, 0.52)
  let WINNING_LIMITS : ℚ × ℚ := (0.52, 1)
  let std := scores.short_term_diff
  let st_exp := scores.short_term_ep
  let pst_exp := scores.prev_short_term_ep
  if is_in std LIMITS && is_in pst_exp LOSING_LIMITS && is_in st_exp WINNING_LIMITS then
    (true, some GOOD_MOVE_TAG, some (Explanation.goodLosingToWinning pst_exp st_exp))
  else if is_in std LIMITS && is_in pst_exp LOSING_LIMITS && is_in st_exp EQUAL_LIMITS then
    (true, some GOOD_MOVE_TAG, some (Explanation.goodLosingToEqual pst_exp st_exp))
  else if is_in std LIMITS && is_in pst_exp EQUAL_LIMITS && is_in st_exp WINNING_LIMITS then
    (true, some GOOD_MOVE_TAG, some (Explanation.goodDrawnToWinning pst_exp st_exp))
  else (false, none, none)

/-- `MoveEvaluator.mistake_check` (move_evaluator.py:393-437).  Note that the
`_verify_pv_scores` early return precedes both scenarios. -/
def mistake_check (scores : MovePoints) (pv_scores : Option (List AltMoveScore)) :
    Bool × Option String × Option Explanation :=
  let MISTAKE_LIMITS : ℚ × ℚ := (-0.2, -0.1)
  let POSITIVE_LIMITS : ℚ × ℚ := (0.0, 1)
  let ltd := scores.long_term_diff
  let lt_exp := scores.long_term_ep
  let plt_exp := scores.prev_long_term_ep
  if _verify_pv_scores pv_scores then (false, none, none)
  else
    let l := pv_scores.getD []
    let best_move_score := (l.getD 0 default).diff
    if is_in ltd MISTAKE_LIMITS && is_in best_move_score POSITIVE_LIMITS then
      (true, some MISTAKE_TAG,
        some (Explanation.mistakeMissed ltd (l.getD 0 default).move best_move_score))
    else if is_in ltd MISTAKE_LIMITS then
      (true, some MISTAKE_TAG, some (Explanation.mistakeWorse plt_exp lt_exp))
    else (false, none, none)

/-- `MoveEvaluator.blunder_check` (move_evaluator.py:439-478).  Scenario 2
only tests `is_in(ltd, BLUNDER_LIMITS)`; the POSITIVE_LIMITS test on the best
alternative belongs to scenario 1 alone. -/
def blunder_check (scores : MovePoints) (pv_scores : Option (List AltMoveScore)) :
    Bool × Option String × Option Explanation :=
  let BLUNDER_LIMITS : ℚ × ℚ := (-1, -0.2)
  let POSITIVE_LIMITS : ℚ × ℚ := (0.0, 1)
  let ltd := scores.long_term_diff
  if _verify_pv_scores pv_scores then (false, none, none)
  else
    let l := pv_scores.getD []
    let best_move_score := (l.getD 0 default).diff
    if is_in ltd BLUNDER_LIMITS && is_in best_move_score POSITIVE_LIMITS then
      (true, some BLUNDER_TAG,
        some (Explanation.blunderMissed ltd (l.getD 0 default).move best_move_score))
    else if is_in ltd BLUNDER_LIMITS then
      (true, some BLUNDER_TAG,
        some (Explanation.blunderWorse ltd (l.getD 0 default).move best_move_score))
    else (false, none, none)

/-- `MoveEvaluator._is_position_quiescent` (move_evaluator.py:523-541). -/
def _is_position_quiescent (ext : Ext) (board : Board) (move : Move) : Bool :=
  let prev_board := board.pop
  if ext.is_check board then false
  else if ext.is_capture prev_board move then false
  else true

/-- The heterogeneous return shapes of `classify_move`: the early
`return None, None` two-element shape and the usual
`(tag, scores, explanation)` triple. -/
inductive ClsfResult
  | pair : ClsfResult
  | triple (tag : Option String) (scores : MovePoints) (explanation : Option Explanation) :
      ClsfResult
deriving DecidableEq, Repr, Inhabited

/-- `MoveEvaluator.classify_move` (move_evaluator.py:137-179): the ordered
rule cascade.  Blunder is checked before the quiescence gate; the literal
string tag for a non-quiescent, non-blunder move is "Not Quiescent". -/
def classify_move (ext : Ext) (score : Score) (board : Board) (move : Move) :
    Except PyErr ClsfResult :=
  match _process_score board score with
  | none => Except.ok ClsfResult.pair
  | some scores =>
    let plti := score.prev_lterm_info
    match get_pv_scores ext board plti with
    | Except.error e => Except.error e
    | Except.ok pv_scores =>
      let b1 := blunder_check scores pv_scores
      if b1.1 then Except.ok (ClsfResult.triple b1.2.1 scores b1.2.2)
      else if !(_is_position_quiescent ext board move) then
        Except.ok (ClsfResult.triple (some "Not Quiescent") scores none)
      else
        let b2 := brilliant_move_check scores pv_scores move
        if b2.1 then Except.ok (ClsfResult.triple b2.2.1 scores b2.2.2)
        else
          let b3 := good_move_check scores pv_scores move
          if b3.1 then Except.ok (ClsfResult.triple b3.2.1 scores b3.2.2)
          else
            let b4 := mistake_check scores pv_scores
            if b4.1 then Except.ok (ClsfResult.triple b4.2.1 scores b4.2.2)
            else Except.ok (ClsfResult.triple none scores none)

/-- One entry of the list built by `evaluate_game`: the dictionary with keys
`move`, `evaluation`, `color`, `fen` (the fen string is represented by the
board value it serializes). -/
structure MoveEval where
  move : Move
  evaluation : ClsfResult
  color : Bool
  fen : Board
deriving DecidableEq, Repr, Inhabited

/-- The loop of `MoveEvaluator.evaluate_game` (move_evaluator.py:35-72):
push the move, score it, classify it, append the entry, and carry the new
`prev_terms` dictionary to the next iteration. -/
def evaluate_game_loop (ext : Ext) (shallow_depth deep_depth : Nat) :
    List Move → Board → Option PrevTerms → Except PyErr (List MoveEval)
  | [], _, _ => Except.ok []
  | move :: rest, board, prev_terms =>
    let board1 := board.push move
    match get_score ext shallow_depth deep_depth board1 prev_terms with
    | Except.error e => Except.error e
    | Except.ok score =>
      match classify_move ext score board1 move with
      | Except.error e => Except.error e
      | Except.ok clsf =>
        let entry := MoveEval.mk move clsf board1.turn board1
        let prev := some (PrevTerms.mk score.short_term_info score.long_term_info)
        match evaluate_game_loop ext shallow_depth deep_depth rest board1 prev with
        | Except.error e => Except.error e
        | Except.ok restEvals => Except.ok (entry :: restEvals)

/-- `MoveEvaluator.evaluate_game` (move_evaluator.py:35-72), starting from the
game's initial board with no previous terms. -/
def evaluate_game (ext : Ext) (shallow_depth deep_depth : Nat)
    (game_moves : List Move) (start_board : Board) : Except PyErr (List MoveEval) :=
  evaluate_game_loop ext shallow_depth deep_depth game_moves start_board none

/-- Spec-side definition (data model, §3): the expected points of the side to
move given its relative win/draw/loss distribution:
`ep = (wins + draws/2) / total`. -/
def rel_ep (t : Wdl3) : ℚ := (t.wins + t.draws / 2) / (t.wins + t.draws + t.losses)

/-- Spec-side definition: the expected points of side `c` given a distribution
relative to side `pov`: the relative value when `c` is the point-of-view side,
its complement otherwise. -/
def ep_of_side (c pov : Bool) (t : Wdl3) : ℚ :=
  if c = pov then rel_ep t else 1 - rel_ep t

/-! ## Helper lemmas -/

instance {ε α : Type} [DecidableEq ε] [DecidableEq α] : DecidableEq (Except ε α) := fun a b =>
  match a, b with
  | Except.error e, Except.error f =>
    if h : e = f then Decidable.isTrue (by rw [h])
    else Decidable.isFalse (fun hh => h (Except.error.inj hh))
  | Except.error _, Except.ok _ => Decidable.isFalse (fun hh => Except.noConfusion hh)
  | Except.ok _, Except.error _ => Decidable.isFalse (fun hh => Except.noConfusion hh)
  | Except.ok x, Except.ok y =>
    if h : x = y then Decidable.isTrue (by rw [h])
    else Decidable.isFalse (fun hh => h (Except.ok.inj hh))

/-- Successful `get_wdl_from_score` calls expose the score-rate fields: the
field named after WHITE always holds the expected points of the side that is
NOT white if the analysed side to move is white, and vice versa — the two
fields are globally swapped relative to their names. -/
theorem get_wdl_ok_fields (t : Wdl3) (stm : Bool) (w : Wdl)
    (h : get_wdl_from_score t stm = Except.ok w) :
    w.white_score_rate = (if stm = BLACK then rel_ep t else 1 - rel_ep t) ∧
    w.black_score_rate = (if stm = WHITE then rel_ep t else 1 - rel_ep t) := by
  simp only [get_wdl_from_score] at h
  by_cases h0 : t.wins + t.draws + t.losses = 0
  · rw [if_pos h0] at h
    exact absurd h (by simp)
  · rw [if_neg h0] at h
    injection h with h
    subst h
    constructor <;> rfl

theorem get_wdl_total_ne_zero (t : Wdl3) (stm : Bool) (w : Wdl)
    (h : get_wdl_from_score t stm = Except.ok w) :
    t.wins + t.draws + t.losses ≠ 0 := by
  intro h0
  simp only [get_wdl_from_score] at h
  rw [if_pos h0] at h
  exact absurd h (by simp)

/-! ## Claim theorems -/

/-- C5: for every distribution with nonzero total, `get_wdl_from_score`
succeeds and the produced `Wdl` has `white_score_rate + black_score_rate = 1`,
for either side to move. -/
theorem get_wdl_score_rates_sum_one (t : Wdl3) (stm : Bool)
    (h : t.wins + t.draws + t.losses ≠ 0) :
    ∃ w, get_wdl_from_score t stm = Except.ok w ∧
      w.white_score_rate + w.black_score_rate = 1 := by
  simp only [get_wdl_from_score]
  rw [if_neg h]
  refine ⟨_, rfl, ?_⟩
  cases stm <;> simp [WHITE, BLACK] <;> try ring

/-- Witness for C5: a concrete distribution. -/
theorem get_wdl_score_rates_sum_one_witness :
    ∃ w, get_wdl_from_score (Wdl3.mk 400 300 300) WHITE = Except.ok w ∧
      w.white_score_rate + w.black_score_rate = 1 :=
  get_wdl_score_rates_sum_one (Wdl3.mk 400 300 300) WHITE (by norm_num)

/-- C7 counterexample: on the all-zero distribution the normalizer fails with
`ZeroDivisionError` (the Python division by a zero total), not with the
`InvalidDistributionError` the claim names — no such error type exists
anywhere in the repository. -/
theorem get_wdl_zero_distribution_counterexample :
    get_wdl_from_score (Wdl3.mk 0 0 0) WHITE = Except.error PyErr.zeroDivisionError ∧
    get_wdl_from_score (Wdl3.mk 0 0 0) WHITE ≠ Except.error PyErr.invalidDistributionError := by
  have h : get_wdl_from_score (Wdl3.mk 0 0 0) WHITE = Except.error PyErr.zeroDivisionError := by
    with_unfolding_all rfl
  refine ⟨h, ?_⟩
  rw [h]
  intro hc
  exact PyErr.noConfusion (Except.error.inj hc)

/-- C7 amended: every degenerate (zero-total) distribution makes
`get_wdl_from_score` fail with `ZeroDivisionError` rather than produce a
numeric result. -/
theorem get_wdl_zero_distribution (t : Wdl3) (stm : Bool)
    (h : t.wins + t.draws + t.losses = 0) :
    get_wdl_from_score t stm = Except.error PyErr.zeroDivisionError := by
  simp only [get_wdl_from_score]
  rw [if_pos h]

/-- Witness for the amended C7. -/
theorem get_wdl_zero_distribution_witness :
    get_wdl_from_score (Wdl3.mk 0 0 0) BLACK = Except.error PyErr.zeroDivisionError :=
  get_wdl_zero_distribution (Wdl3.mk 0 0 0) BLACK (by norm_num)

/-- C8: on the first ply (both previous infos absent) `_process_score` does
not fail: it produces a record whose previous expected points default to 0.5,
so each diff equals the current expected points minus 0.5. -/
theorem process_score_first_ply_defaults (board : Board) (stW ltW : Wdl) :
    ∃ mp, _process_score board (Score.mk stW ltW none none) = some mp ∧
      mp.prev_short_term_ep = 0.5 ∧ mp.prev_long_term_ep = 0.5 ∧
      mp.short_term_diff = mp.short_term_ep - 0.5 ∧
      mp.long_term_diff = mp.long_term_ep - 0.5 := by
  refine ⟨_, rfl, ?_⟩
  cases hb : board.turn <;> simp [_process_score, hb, WHITE]

/-- Range membership unfolded: sorted-bounds membership is min/max membership. -/
theorem is_in_iff (v a b : ℚ) : is_in v (a, b) = true ↔ min a b ≤ v ∧ v ≤ max a b := by
  simp only [is_in, sorted2, decide_eq_true_eq]
  by_cases hab : a ≤ b
  · rw [if_pos hab, min_eq_left hab, max_eq_right hab]
  · have h : b ≤ a := le_of_not_le hab
    rw [if_neg hab, min_eq_right h, max_eq_left h]

/-- A `MovePoints` record with the Brilliant-scenario-A shape of the claim:
`short_term_diff = 0.7 * 0.2`, `long_term_ep = 0.35`, and the given
`long_term_diff`. -/
def brilliantShape (ltd : ℚ) : MovePoints :=
  MovePoints.mk 0.14 ltd 0.5 0.35 0.4 0.5 0.4 0.3 true

/-- C6: `is_in` is inclusive on both endpoints and independent of the declared
order of the bounds; consequently a move with `long_term_diff` exactly 0.2,
`short_term_diff = 0.7 * 0.2` and `long_term_ep = 0.35` is tagged "!!" by
Brilliant scenario A, while any `long_term_diff` strictly below 0.2 under
otherwise identical inputs never yields the "!!" tag. -/
theorem is_in_inclusive_brilliant_boundary :
    (∀ v a b : ℚ, is_in v (a, b) = true ↔ min a b ≤ v ∧ v ≤ max a b) ∧
    brilliant_move_check (brilliantShape 0.2) none 3 =
      (true, some BRILLIANT_MOVE_TAG, some (Explanation.brilliantLongTerm 0.2 0.14)) ∧
    (∀ ltd : ℚ, ltd < 0.2 → ∀ pv mv,
      (brilliant_move_check (brilliantShape ltd) pv mv).2.1 ≠ some BRILLIANT_MOVE_TAG) := by
  refine ⟨is_in_iff, by with_unfolding_all decide, ?_⟩
  intro ltd hltd pv mv
  simp only [brilliant_move_check, brilliantShape]
  split
  · next hcond =>
    exfalso
    simp only [Bool.and_eq_true] at hcond
    have h1 := (is_in_iff ltd 0.2 1).mp hcond.1.1
    have : (0.2 : ℚ) ≤ 1 := by norm_num
    rw [min_eq_left this] at h1
    exact absurd h1.1 (not_le.mpr hltd)
  · split
    · simp
    · split
      · intro hc
        have := Option.some.inj hc
        simp only [GOOD_MOVE_TAG, BRILLIANT_MOVE_TAG] at this
        exact absurd this (by decide)
      · simp

/-- Witness for C6: the second and third conjunct applied at concrete inputs. -/
theorem is_in_inclusive_brilliant_boundary_witness :
    (is_in 0.5 (1, 0) = true ↔ min (1 : ℚ) 0 ≤ 0.5 ∧ (0.5 : ℚ) ≤ max (1 : ℚ) 0) ∧
    (brilliant_move_check (brilliantShape 0.1) none 3).2.1 ≠ some BRILLIANT_MOVE_TAG :=
  ⟨is_in_inclusive_brilliant_boundary.1 0.5 1 0,
   is_in_inclusive_brilliant_boundary.2.2 0.1 (by norm_num) none 3⟩

/-- `MovePoints` with `long_term_diff = -0.5` and neutral values elsewhere. -/
def scoresBigDrop : MovePoints := MovePoints.mk 0 (-0.5) 0 0 0.5 0.5 0 0 true

/-- Two ranked alternatives whose deltas are both negative. -/
def pvAllNegative : Option (List AltMoveScore) :=
  some [AltMoveScore.mk 0 (-0.3), AltMoveScore.mk 1 (-0.4)]

/-- C2 counterexample: with two ranked alternatives, `long_term_diff = -0.5`
and a best alternative delta of `-0.3` (outside `[0, 1]`), the blunder tag is
still assigned — scenario 2 tests only `long_term_diff`, so the claimed
equivalence fails at this input. -/
theorem blunder_iff_counterexample :
    ¬(((blunder_check scoresBigDrop pvAllNegative).2.1 = some BLUNDER_TAG) ↔
      (is_in scoresBigDrop.long_term_diff (-1, -0.2) = true ∧
       is_in ((pvAllNegative.getD []).getD 0 default).diff (0.0, 1) = true)) := by
  with_unfolding_all decide

/-- C2 amended: given at least 2 ranked alternatives, the blunder tag "??" is
assigned if and only if `long_term_diff` lies in `[-1, -0.2]`; the best
alternative's delta lying in `[0, 1]` only selects which of the two
explanation scenarios is used. -/
theorem blunder_tag_iff_long_term_diff (scores : MovePoints)
    (pv : Option (List AltMoveScore)) (h : _verify_pv_scores pv = false) :
    ((blunder_check scores pv).2.1 = some BLUNDER_TAG ↔
      is_in scores.long_term_diff (-1, -0.2) = true) ∧
    ((blunder_check scores pv).1 = true ↔
      is_in scores.long_term_diff (-1, -0.2) = true) := by
  have hv : (_verify_pv_scores pv = true) = False := by simp [h]
  simp only [blunder_check, hv, if_false]
  by_cases h1 : is_in scores.long_term_diff (-1, -0.2) = true
  · by_cases h2 : is_in ((pv.getD []).getD 0 default).diff (0.0, 1) = true
    · rw [if_pos (by rw [Bool.and_eq_true]; exact ⟨h1, h2⟩)]
      simp [h1]
    · rw [if_neg (by rw [Bool.and_eq_true]; exact fun hc => h2 hc.2), if_pos h1]
      simp [h1]
  · rw [if_neg (by rw [Bool.and_eq_true]; exact fun hc => h1 hc.1), if_neg h1]
    simp [h1]

/-- Witness for the amended C2. -/
theorem blunder_tag_iff_long_term_diff_witness :
    ((blunder_check scoresBigDrop pvAllNegative).2.1 = some BLUNDER_TAG ↔
      is_in scoresBigDrop.long_term_diff (-1, -0.2) = true) ∧
    ((blunder_check scoresBigDrop pvAllNegative).1 = true ↔
      is_in scoresBigDrop.long_term_diff (-1, -0.2) = true) :=
  blunder_tag_iff_long_term_diff scoresBigDrop pvAllNegative (by decide)

/-- `MovePoints` with `long_term_diff = -0.15` and neutral values elsewhere. -/
def scoresSmallDrop : MovePoints := MovePoints.mk 0 (-0.15) 0 0 0.5 0.5 0 0 true

/-- C3 counterexample: with `long_term_diff = -0.15` (inside `[-0.2, -0.1]`)
but fewer than 2 ranked alternatives (empty list, or the no-history sentinel),
`mistake_check` does not fire at all: the `_verify_pv_scores` early return
precedes scenario B, so scenario B is not unconditional. -/
theorem mistake_scenarioB_counterexample :
    is_in scoresSmallDrop.long_term_diff (-0.2, -0.1) = true ∧
    mistake_check scoresSmallDrop (some []) = (false, none, none) ∧
    mistake_check scoresSmallDrop none = (false, none, none) := by
  with_unfolding_all decide

/-- C3 amended: scenario B of `mistake_check` assigns "?" whenever
`long_term_diff` lies in `[-0.2, -0.1]` with no condition on the ranked
alternatives' values, but only once at least 2 ranked alternatives are
available — with fewer, `mistake_check` returns no match before either
scenario is evaluated. -/
theorem mistake_scenarioB_needs_ranking (scores : MovePoints)
    (pv : Option (List AltMoveScore)) (h : _verify_pv_scores pv = false)
    (hltd : is_in scores.long_term_diff (-0.2, -0.1) = true) :
    (mistake_check scores pv).1 = true ∧
    (mistake_check scores pv).2.1 = some MISTAKE_TAG := by
  have hv : (_verify_pv_scores pv = true) = False := by simp [h]
  simp only [mistake_check, hv, if_false]
  by_cases h2 : is_in ((pv.getD []).getD 0 default).diff (0.0, 1) = true
  · rw [if_pos (by rw [Bool.and_eq_true]; exact ⟨hltd, h2⟩)]
    simp
  · rw [if_neg (by rw [Bool.and_eq_true]; exact fun hc => h2 hc.2), if_pos hltd]
    simp

/-- Witness for the amended C3. -/
theorem mistake_scenarioB_needs_ranking_witness :
    (mistake_check scoresSmallDrop pvAllNegative).1 = true ∧
    (mistake_check scoresSmallDrop pvAllNegative).2.1 = some MISTAKE_TAG :=
  mistake_scenarioB_needs_ranking scoresSmallDrop pvAllNegative (by decide)
    (by with_unfolding_all decide)

/-- C1: diffs are from the mover's perspective.  In `evaluate_game` the board
passed to `get_score` and `classify_move` is the board AFTER the move was
pushed, so its side to move `stm` is the opponent of the mover and the mover
is `!stm`; the previous ply's infos were computed when the board's side to
move was `!stm`.  Under exactly that wiring, the expected-points values
selected by `_process_score` are those of the mover (the name-swapped
score-rate fields of `get_wdl_from_score` cancel against the post-move
selection), each diff is the mover's expected points now minus the mover's
expected points before the move, and a positive long-term diff means the
mover's expected points increased. -/
theorem process_score_mover_perspective (stm : Bool) (stk : List Move)
    (stT ltT pstT pltT : Wdl3) (stW ltW pstW pltW : Wdl)
    (hst : get_wdl_from_score stT stm = Except.ok stW)
    (hlt : get_wdl_from_score ltT stm = Except.ok ltW)
    (hpst : get_wdl_from_score pstT (!stm) = Except.ok pstW)
    (hplt : get_wdl_from_score pltT (!stm) = Except.ok pltW) :
    ∃ mp, _process_score (Board.mk stm stk) (Score.mk stW ltW (some pstW) (some pltW)) =
        some mp ∧
      mp.short_term_ep = ep_of_side (!stm) stm stT ∧
      mp.long_term_ep = ep_of_side (!stm) stm ltT ∧
      mp.short_term_diff = ep_of_side (!stm) stm stT - ep_of_side (!stm) (!stm) pstT ∧
      mp.long_term_diff = ep_of_side (!stm) stm ltT - ep_of_side (!stm) (!stm) pltT ∧
      (0 < mp.short_term_diff ↔
        ep_of_side (!stm) (!stm) pstT < ep_of_side (!stm) stm stT) ∧
      (0 < mp.long_term_diff ↔
        ep_of_side (!stm) (!stm) pltT < ep_of_side (!stm) stm ltT) := by
  obtain ⟨hw1, hb1⟩ := get_wdl_ok_fields _ _ _ hst
  obtain ⟨hw2, hb2⟩ := get_wdl_ok_fields _ _ _ hlt
  obtain ⟨hw3, hb3⟩ := get_wdl_ok_fields _ _ _ hpst
  obtain ⟨hw4, hb4⟩ := get_wdl_ok_fields _ _ _ hplt
  refine ⟨_, rfl, ?_, ?_, ?_, ?_, ?_, ?_⟩ <;>
    cases stm <;>
      simp [_process_score, ep_of_side, WHITE, BLACK, hw1, hb1, hw2, hb2, hw3, hb3,
        hw4, hb4, sub_pos]

/-- Concrete inputs for the C1 witness: distributions with nonzero totals and
the `Wdl` records the normalizer produces from them. -/
def stT1 : Wdl3 := Wdl3.mk 600 200 200

def ltT1 : Wdl3 := Wdl3.mk 500 300 200

def pstT1 : Wdl3 := Wdl3.mk 400 300 300

def pltT1 : Wdl3 := Wdl3.mk 300 400 300

def stW1 : Wdl := (get_wdl_from_score stT1 false).toOption.getD default

def ltW1 : Wdl := (get_wdl_from_score ltT1 false).toOption.getD default

def pstW1 : Wdl := (get_wdl_from_score pstT1 true).toOption.getD default

def pltW1 : Wdl := (get_wdl_from_score pltT1 true).toOption.getD default

/-- Witness for C1: the theorem applied where black is to move after white's
move (the mover is white). -/
theorem process_score_mover_perspective_witness :
    ∃ mp, _process_score (Board.mk false []) (Score.mk stW1 ltW1 (some pstW1) (some pltW1)) =
        some mp ∧
      mp.short_term_ep = ep_of_side (!false) false stT1 ∧
      mp.long_term_ep = ep_of_side (!false) false ltT1 ∧
      mp.short_term_diff = ep_of_side (!false) false stT1 - ep_of_side (!false) (!false) pstT1 ∧
      mp.long_term_diff = ep_of_side (!false) false ltT1 - ep_of_side (!false) (!false) pltT1 ∧
      (0 < mp.short_term_diff ↔
        ep_of_side (!false) (!false) pstT1 < ep_of_side (!false) false stT1) ∧
      (0 < mp.long_term_diff ↔
        ep_of_side (!false) (!false) pltT1 < ep_of_side (!false) false ltT1) :=
  process_score_mover_perspective false [] stT1 ltT1 pstT1 pltT1 stW1 ltW1 pstW1 pltW1
    (by with_unfolding_all rfl) (by with_unfolding_all rfl)
    (by with_unfolding_all rfl) (by with_unfolding_all rfl)

/-- C10: `_process_score` returns a record for every input (its body ends in
an unconditional `return mp`), so the early two-element return branch of
`classify_move` (taken only when `_process_score` yields `None`) is
unreachable: every successful `classify_move` result is a
`(tag, scores, explanation)` triple. -/
theorem process_score_total_classify_triple :
    (∀ board score, (_process_score board score).isSome = true) ∧
    (∀ ext score board move r, classify_move ext score board move = Except.ok r →
      ∃ t sc e, r = ClsfResult.triple t sc e) := by
  constructor
  · intro board score
    rfl
  · intro ext score board move r h
    simp only [classify_move] at h
    split at h
    · next heq => exact absurd heq (by simp [_process_score])
    · split at h
      · exact absurd h (by simp)
      · split_ifs at h <;> (injection h with h; exact ⟨_, _, _, h.symm⟩)

/-- C4: the blunder rule is evaluated before the quiescence gate.  Whenever
the blunder conditions hold (≥2 ranked alternatives, `long_term_diff` in
`[-1, -0.2]`, best alternative delta in `[0, 1]`), `classify_move` returns the
"??" triple for ANY external oracle — in particular for boards that are not
quiescent; and when the blunder rule does not fire and the position is not
quiescent, the result is the "Not Quiescent" triple with no explanation and no
further rule evaluated. -/
theorem classify_blunder_before_quiescence (ext : Ext) (score : Score) (board : Board)
    (move : Move) (scores : MovePoints) :
    (∀ l, _process_score board score = some scores →
      get_pv_scores ext board score.prev_lterm_info = Except.ok (some l) →
      2 ≤ l.length →
      is_in scores.long_term_diff (-1, -0.2) = true →
      is_in (l.getD 0 default).diff (0.0, 1) = true →
      classify_move ext score board move = Except.ok (ClsfResult.triple (some BLUNDER_TAG)
        scores (some (Explanation.blunderMissed scores.long_term_diff
          (l.getD 0 default).move (l.getD 0 default).diff)))) ∧
    (∀ pv, _process_score board score = some scores →
      get_pv_scores ext board score.prev_lterm_info = Except.ok pv →
      (blunder_check scores pv).1 = false →
      _is_position_quiescent ext board move = false →
      classify_move ext score board move =
        Except.ok (ClsfResult.triple (some "Not Quiescent") scores none)) := by
  constructor
  · intro l hps hpv hlen hltd hbest
    have hv : _verify_pv_scores (some l) = false := by
      simp only [_verify_pv_scores, decide_eq_false_iff_not, not_lt]
      omega
    have hbc : blunder_check scores (some l) =
        (true, some BLUNDER_TAG, some (Explanation.blunderMissed scores.long_term_diff
          (l.getD 0 default).move (l.getD 0 default).diff)) := by
      simp only [blunder_check, hv, Bool.false_eq_true, if_false, Option.getD_some]
      rw [if_pos (by rw [Bool.and_eq_true]; exact ⟨hltd, hbest⟩)]
    simp only [classify_move, hps, hpv, hbc, if_true]
  · intro pv hps hpv hb hq
    simp only [classify_move, hps, hpv, hb, hq, Bool.false_eq_true, if_false,
      Bool.not_false, if_true]

/-- An oracle stub whose every analysed position is lost for the side to move
and where every position is in check (hence never quiescent). -/
def extCheck : Ext where
  analyse := fun _ _ => Wdl3.mk 0 0 1000
  legal_moves := fun _ => [0, 1]
  is_check := fun _ => true
  is_capture := fun _ _ => false

def prevEven : Wdl := Wdl.mk 0.5 0.5 0.5 0.5

def boardC4 : Board := Board.mk true [5]

def scoreDrop : Score := Score.mk (Wdl.mk 0 0 0 0) (Wdl.mk 0 0 0 0) (some prevEven) (some prevEven)

def scoresDrop : MovePoints := (_process_score boardC4 scoreDrop).getD default

def scoreFlat : Score := Score.mk prevEven prevEven (some prevEven) (some prevEven)

def scoresFlat : MovePoints := (_process_score boardC4 scoreFlat).getD default

def listHalf : List AltMoveScore := [AltMoveScore.mk 0 0.5, AltMoveScore.mk 1 0.5]

/-- Witness for C4: with the in-check oracle, a big long-term drop is tagged
"??" although the position is not quiescent, while a flat move is tagged
"Not Quiescent". -/
theorem classify_blunder_before_quiescence_witness :
    classify_move extCheck scoreDrop boardC4 9 = Except.ok (ClsfResult.triple (some BLUNDER_TAG)
      scoresDrop (some (Explanation.blunderMissed scoresDrop.long_term_diff
        (listHalf.getD 0 default).move (listHalf.getD 0 default).diff))) ∧
    classify_move extCheck scoreFlat boardC4 9 =
      Except.ok (ClsfResult.triple (some "Not Quiescent") scoresFlat none) :=
  ⟨(classify_blunder_before_quiescence extCheck scoreDrop boardC4 9 scoresDrop).1 listHalf
      (by with_unfolding_all rfl) (by with_unfolding_all rfl) (by decide)
      (by with_unfolding_all decide) (by with_unfolding_all decide),
   (classify_blunder_before_quiescence extCheck scoreFlat boardC4 9 scoresFlat).2 (some listHalf)
      (by with_unfolding_all rfl) (by with_unfolding_all rfl) (by with_unfolding_all decide)
      (by with_unfolding_all decide)⟩

def resC10 : ClsfResult := (classify_move extCheck scoreFlat boardC4 9).toOption.getD ClsfResult.pair

/-- Witness for C10. -/
theorem process_score_total_classify_triple_witness :
    (_process_score boardC4 scoreFlat).isSome = true ∧
    ∃ t sc e, resC10 = ClsfResult.triple t sc e :=
  ⟨process_score_total_classify_triple.1 boardC4 scoreFlat,
   process_score_total_classify_triple.2 extCheck scoreFlat boardC4 9 resC10
     (by with_unfolding_all rfl)⟩

/-- Structural property of the `evaluate_game` loop: a successful run produces
exactly one entry per move, in game order. -/
theorem evaluate_game_loop_spec (ext : Ext) (sh dp : Nat) :
    ∀ (moves : List Move) (board : Board) (prev : Option PrevTerms) (evals : List MoveEval),
      evaluate_game_loop ext sh dp moves board prev = Except.ok evals →
      evals.length = moves.length ∧
      ∀ i (hi : i < evals.length) (hm : i < moves.length),
        (evals.get ⟨i, hi⟩).move = moves.get ⟨i, hm⟩
  | [], board, prev, evals, h => by
    simp only [evaluate_game_loop] at h
    injection h with h
    subst h
    exact ⟨rfl, fun i hi hm => absurd hi (by simp)⟩
  | m :: rest, board, prev, evals, h => by
    simp only [evaluate_game_loop] at h
    split at h
    · exact absurd h (by simp)
    · split at h
      · exact absurd h (by simp)
      · split at h
        · exact absurd h (by simp)
        · next restE heq3 =>
          injection h with h
          subst h
          obtain ⟨hlen, hidx⟩ := evaluate_game_loop_spec ext sh dp rest _ _ _ heq3
          refine ⟨by simp [hlen], ?_⟩
          intro i hi hm
          cases i with
          | zero => rfl
          | succ j =>
            simp only [List.length_cons] at hi hm
            exact hidx j (Nat.lt_of_succ_lt_succ hi) (Nat.lt_of_succ_lt_succ hm)

/-- C9: every successful `evaluate_game` run returns an ordered result list
whose length equals the number of mainline moves, with the i-th entry holding
the i-th move; entries are appended unconditionally, so a move matching no
scenario still has an entry (with a `none` tag inside its triple), never a
missing entry. -/
theorem evaluate_game_length_and_order (ext : Ext) (shallow_depth deep_depth : Nat)
    (game_moves : List Move) (start_board : Board) (evals : List MoveEval)
    (h : evaluate_game ext shallow_depth deep_depth game_moves start_board = Except.ok evals) :
    evals.length = game_moves.length ∧
    ∀ i (hi : i < evals.length) (hm : i < game_moves.length),
      (evals.get ⟨i, hi⟩).move = game_moves.get ⟨i, hm⟩ :=
  evaluate_game_loop_spec ext shallow_depth deep_depth game_moves start_board none evals h

/-- A quiet oracle stub: no checks, no captures, a fixed nondegenerate
distribution. -/
def extQuiet : Ext where
  analyse := fun _ _ => Wdl3.mk 400 300 300
  legal_moves := fun _ => [0, 1]
  is_check := fun _ => false
  is_capture := fun _ _ => false

def startBoard : Board := Board.mk true []

def resC9 : List MoveEval := (evaluate_game extQuiet 5 20 [7, 8] startBoard).toOption.getD []

/-- Witness for C9: a concrete two-move game evaluates successfully and yields
two entries. -/
theorem evaluate_game_length_and_order_witness :
    resC9.length = ([7, 8] : List Move).length :=
  (evaluate_game_length_and_order extQuiet 5 20 [7, 8] startBoard resC9
    (by with_unfolding_all rfl)).1

end ChessAnnotator
